import Mathlib

/-!
Shallow embedding of the krkn-ai analysis engine
(Go package `analysisengine` of the osde2e repository).

The engine orchestrates: aggregation of chaos-test results, prompt
rendering, a tool-augmented LLM call, summary persistence, and
notification dispatch.  External collaborators (aggregator, prompt
store, LLM client, file system, reporters, clock) are modelled by an
`Env` record supplying each collaborator call's outcome; the engine's
own control flow and data construction are translated from the source.
Go `float64` values (fitness scores) are modelled opaquely as `Int`:
the engine only copies them, never computes with them.
-/

/-- Constant `analysisDirName` from the source. -/
def analysisDirName : String := "llm-analysis"

/-- Constant `summaryFileName` from the source. -/
def summaryFileName : String := "summary.yaml"

/-- Constant `krknAIPromptTemplate` from the source. -/
def krknAIPromptTemplate : String := "krknai"

/-- Go `filepath.Join` on two already-clean relative segments. -/
def pathJoin (a b : String) : String := a ++ "/" ++ b

/-- Go `genai.FunctionCall`: the engine reads only the `Name` field;
arguments are opaque and kept as a string. -/
structure FunctionCall where
  Name : String
  Args : String
  deriving DecidableEq, Repr

/-- The aggregator's summary statistics (`data.Summary` fields read by the
engine).  Counts and generation number are Go `int`; the two fitness
scores are Go `float64`, modelled opaquely as `Int` (copied, never
computed with); `ScenarioTypes` is the scenario-type histogram. -/
structure KrknSummary where
  TotalScenarioCount : Int
  SuccessfulScenarioCount : Int
  FailedScenarioCount : Int
  Generations : Int
  MaxFitnessScore : Int
  AvgFitnessScore : Int
  ScenarioTypes : List (String × Int)
  deriving DecidableEq, Repr

/-- `krknAggregator.KrknAIData`: the collected-data bundle.  Scenario
records, the health-check report and the config summary are opaque to
the engine and modelled as strings; `LogArtifacts` is the list of
artifact paths handed to the tool registry. -/
structure KrknAIData where
  Summary : KrknSummary
  TopScenarios : List String
  FailedScenarios : List String
  HealthCheckReport : String
  LogArtifacts : List String
  ConfigSummary : String
  deriving DecidableEq, Repr

/-- A metadata value: the engine stores either a string tag or a numeric
value (Go `map[string]any`). -/
inductive MetaValue where
  | str (s : String)
  | int (n : Int)
  deriving DecidableEq, Repr

/-- A template-variable value: the engine's `vars` map holds the
aggregator summary record, scenario/artifact lists, or opaque strings. -/
inductive TemplateValue where
  | sum (s : KrknSummary)
  | strList (l : List String)
  | str (s : String)
  deriving DecidableEq, Repr

/-- `llm.AnalysisConfig`: model-invocation parameters.  The engine
assigns only the three pointer fields `Temperature`, `MaxTokens`,
`TopP` (modelled as `Option Int`, values opaque).  `Extra` models the
remaining template-supplied parameters of the type, which the engine
never touches (the type's full field list lives outside the sampled
source). -/
structure AnalysisConfig where
  Temperature : Option Int
  MaxTokens : Option Int
  TopP : Option Int
  Extra : List (String × String)
  deriving DecidableEq, Repr

/-- The LLM client's analysis output: free-text content plus the ordered
list of tool invocations the model performed. -/
structure AnalyzeResult where
  Content : String
  ToolCalls : List FunctionCall
  deriving DecidableEq, Repr

/-- `Result` from the source: the analysis output.  `ToolCalls` is a Go
slice whose zero value is `nil`, modelled as `Option (List FunctionCall)`
with `none` for `nil`. -/
structure Result where
  Status : String
  Content : String
  Metadata : List (String × MetaValue)
  Error : String
  Prompt : String
  ToolCalls : Option (List FunctionCall)
  deriving DecidableEq, Repr

/-- `reporter.ReporterConfig`: the per-channel configuration entry; the
engine reads its type tag when logging a dispatch failure.  (Go field
`Type`, renamed because `Type` is a Lean keyword.) -/
structure ReporterConfig where
  ReporterType : String
  deriving DecidableEq, Repr

/-- `reporter.NotificationConfig`: enabled flag plus configured reporter
entries. -/
structure NotificationConfig where
  Enabled : Bool
  Reporters : List ReporterConfig
  deriving DecidableEq, Repr

/-- `reporter.AnalysisResult`: the normalized result handed to
reporters.  Note the type has no tool-call field. -/
structure ReporterAnalysisResult where
  Status : String
  Content : String
  Metadata : List (String × MetaValue)
  Error : String
  Prompt : String
  deriving DecidableEq, Repr

/-- `Config` from the source: engine configuration. -/
structure Config where
  ResultsDir : String
  APIKey : String
  LLMConfig : Option AnalysisConfig
  NotificationConfig : Option NotificationConfig
  TopScenariosCount : Int
  deriving DecidableEq, Repr

/-- The run-summary block of the persisted summary document. -/
structure RunSummaryBlock where
  total_scenarios : Int
  successful_scenarios : Int
  failed_scenarios : Int
  generations : Int
  max_fitness_score : Int
  avg_fitness_score : Int
  scenario_types : List (String × Int)
  deriving DecidableEq, Repr

/-- The summary document `writeSummary` builds and serializes (the Go
`map[string]any` literal, modelled with one field per key; `response`
holds the result content, as in the source). -/
structure SummaryDoc where
  timestamp : String
  analysis_type : String
  run_summary : RunSummaryBlock
  top_scenarios : List String
  failed_scenarios : List String
  status : String
  prompt : String
  response : String
  metadata : List (String × MetaValue)
  error : String
  deriving DecidableEq, Repr

/-- Environment of collaborator outcomes for one `Run` invocation:
the aggregator's result, the prompt store's rendering result, the LLM
client's result, the outcomes of the two file-system operations in
`writeSummary` (`none` means success, `some e` the operation's error),
the per-reporter send outcome, and the formatted current time. -/
structure Env where
  collect : Except String KrknAIData
  render : Except String (String × AnalysisConfig)
  analyze : Except String AnalyzeResult
  mkdirErr : Option String
  writeErr : Option String
  sendErr : ReporterConfig → Option String
  now : String

/-- Observable effect trace of one `Run` invocation: prompt renderings
requested (template id and variable mapping), LLM calls issued (prompt,
parameters, tool-registry artifact paths), summary files successfully
written (path and document), notifications dispatched (payload and
reporter entry), and warnings logged. -/
structure Trace where
  renders : List (String × List (String × TemplateValue)) := []
  analyzeCalls : List (String × AnalysisConfig × List String) := []
  writes : List (String × SummaryDoc) := []
  notifies : List (ReporterAnalysisResult × ReporterConfig) := []
  warnings : List String := []
  deriving DecidableEq, Repr

/-- Number of tool calls named `"read_file"` (the counting closure in
the metadata construction). -/
def artifactsExamined (tcs : List FunctionCall) : Nat :=
  tcs.countP (fun tc => tc.Name == "read_file")

/-- The metadata map built for the analysis result, in source order. -/
def buildMetadata (s : KrknSummary) (tcs : List FunctionCall) :
    List (String × MetaValue) :=
  [("analysis_type", .str "krknai"),
   ("total_scenarios", .int s.TotalScenarioCount),
   ("successful_scenarios", .int s.SuccessfulScenarioCount),
   ("failed_scenarios", .int s.FailedScenarioCount),
   ("generations", .int s.Generations),
   ("max_fitness_score", .int s.MaxFitnessScore),
   ("artifacts_examined", .int (artifactsExamined tcs)),
   ("tool_calls", .int tcs.length)]

/-- First-match lookup in a metadata map (Go map access; keys built by
the engine are distinct, so first match is the map entry). -/
def metaLookup (m : List (String × MetaValue)) (k : String) : Option MetaValue :=
  (m.find? (fun kv => kv.1 == k)).map Prod.snd

/-- The template-variable mapping built from the collected data (the
`vars` map literal in `Run`, in source order). -/
def buildTemplateVars (data : KrknAIData) : List (String × TemplateValue) :=
  [("Summary", .sum data.Summary),
   ("TopScenarios", .strList data.TopScenarios),
   ("FailedScenarios", .strList data.FailedScenarios),
   ("HealthCheckReport", .str data.HealthCheckReport),
   ("LogArtifacts", .strList data.LogArtifacts),
   ("ConfigSummary", .str data.ConfigSummary)]

/-- Applying the caller's LLM-config overrides (`Run`, the three guarded
assignments): each of the three parameters is overridden independently
and only when the caller-supplied value is present. -/
def applyLLMOverrides (ov : Option AnalysisConfig) (c : AnalysisConfig) :
    AnalysisConfig :=
  match ov with
  | none => c
  | some o =>
    let c1 := match o.Temperature with
      | some t => { c with Temperature := some t }
      | none => c
    let c2 := match o.MaxTokens with
      | some m => { c1 with MaxTokens := some m }
      | none => c1
    match o.TopP with
    | some p => { c2 with TopP := some p }
    | none => c2

/-- The analysis result constructed on the success path of `Run` (the
`analysisResult` struct literal; `Error` and `ToolCalls` keep their Go
zero values). -/
def successResult (userPrompt : String) (data : KrknAIData)
    (out : AnalyzeResult) : Result :=
  { Status := "completed",
    Content := out.Content,
    Metadata := buildMetadata data.Summary out.ToolCalls,
    Error := "",
    Prompt := userPrompt,
    ToolCalls := none }

/-- The fixed summary-file path `<results-dir>/llm-analysis/summary.yaml`. -/
def summaryPath (cfg : Config) : String :=
  pathJoin (pathJoin cfg.ResultsDir analysisDirName) summaryFileName

/-- The summary document built by `writeSummary` from the current time,
the analysis result and the collected data. -/
def buildSummaryDoc (now : String) (result : Result) (data : KrknAIData) :
    SummaryDoc :=
  { timestamp := now,
    analysis_type := "krknai",
    run_summary :=
      { total_scenarios := data.Summary.TotalScenarioCount,
        successful_scenarios := data.Summary.SuccessfulScenarioCount,
        failed_scenarios := data.Summary.FailedScenarioCount,
        generations := data.Summary.Generations,
        max_fitness_score := data.Summary.MaxFitnessScore,
        avg_fitness_score := data.Summary.AvgFitnessScore,
        scenario_types := data.Summary.ScenarioTypes },
    top_scenarios := data.TopScenarios,
    failed_scenarios := data.FailedScenarios,
    status := result.Status,
    prompt := result.Prompt,
    response := result.Content,
    metadata := result.Metadata,
    error := result.Error }

/-- `Engine.writeSummary`: create the analysis directory, build the
summary document and write it to the fixed path.  Serialization of the
document (`yaml.Marshal` of a map of plain values) is modelled as
infallible; directory creation and the file write take their outcome
from the environment.  Returns the path and document written. -/
def Engine.writeSummary (cfg : Config) (env : Env) (result : Result)
    (data : KrknAIData) : Except String (String × SummaryDoc) :=
  match env.mkdirErr with
  | some e => .error ("failed to create analysis directory: " ++ e)
  | none =>
    match env.writeErr with
    | some e => .error ("failed to write summary file: " ++ e)
    | none => .ok (summaryPath cfg, buildSummaryDoc env.now result data)

/-- The `reporterResult` payload `sendNotifications` builds from the
analysis result (no tool-call data is carried over). -/
def toReporterResult (result : Result) : ReporterAnalysisResult :=
  { Status := result.Status,
    Content := result.Content,
    Metadata := result.Metadata,
    Error := result.Error,
    Prompt := result.Prompt }

/-- `Engine.sendNotifications`: build the reporter payload and dispatch
once per configured reporter entry; a failed send is logged as a
warning.  Returns the dispatched (payload, entry) pairs and the logged
warnings. -/
def Engine.sendNotifications (env : Env) (nc : NotificationConfig)
    (result : Result) :
    List (ReporterAnalysisResult × ReporterConfig) × List String :=
  (nc.Reporters.map (fun rc => (toReporterResult result, rc)),
   nc.Reporters.filterMap (fun rc =>
     (env.sendErr rc).map (fun e =>
       "Warning: Failed to send notification via " ++ rc.ReporterType
         ++ ": " ++ e)))

/-- The notification stage of `Run`: dispatch only when a notification
configuration is present and enabled. -/
def runNotifyStage (cfg : Config) (env : Env) (result : Result) :
    List (ReporterAnalysisResult × ReporterConfig) × List String :=
  match cfg.NotificationConfig with
  | some nc =>
    if nc.Enabled then Engine.sendNotifications env nc result else ([], [])
  | none => ([], [])

/-- Outcome of a Go function that may return a value, return an error,
or panic at runtime. -/
inductive GoOutcome (α : Type) where
  | panics
  | fail (msg : String)
  | ok (a : α)
  deriving DecidableEq, Repr

/-- Whether the outcome is an error return. -/
def GoOutcome.isFail {α : Type} : GoOutcome α → Bool
  | .fail _ => true
  | _ => false

/-- `Engine` from the source; collaborator handles (aggregator, prompt
store, LLM client, reporter registry) carry no data the claims read,
so only the stored configuration is modelled. -/
structure Engine where
  config : Config
  deriving DecidableEq, Repr

/-- Environment for `New`: outcomes of the collaborator
initializations performed after the precondition checks (`none` means
success). -/
structure NewEnv where
  subFSErr : Option String
  promptStoreErr : Option String
  geminiErr : Option String
  deriving DecidableEq, Repr

/-- `New`: create the engine.  The Go parameter is `*Config`; a `nil`
pointer is dereferenced by the first check (`config.ResultsDir`) and
panics.  After the two precondition checks, collaborator
initializations run in source order; the returned list records which of
them were attempted. -/
def New (config : Option Config) (env : NewEnv) :
    GoOutcome Engine × List String :=
  match config with
  | none => (.panics, [])
  | some cfg =>
    if cfg.ResultsDir = "" then
      (.fail "results directory is required", [])
    else if cfg.APIKey = "" then
      (.fail "GEMINI_API_KEY is required for krkn-ai analysis", [])
    else
      match env.subFSErr with
      | some e =>
        (.fail ("failed to access embedded prompts: " ++ e),
         ["NewKrknAIAggregator", "fs.Sub"])
      | none =>
        match env.promptStoreErr with
        | some e =>
          (.fail ("failed to initialize prompt store: " ++ e),
           ["NewKrknAIAggregator", "fs.Sub", "NewPromptStore"])
        | none =>
          match env.geminiErr with
          | some e =>
            (.fail ("failed to initialize LLM client: " ++ e),
             ["NewKrknAIAggregator", "fs.Sub", "NewPromptStore",
              "NewGeminiClient"])
          | none =>
            (.ok { config := cfg },
             ["NewKrknAIAggregator", "fs.Sub", "NewPromptStore",
              "NewGeminiClient", "NewReporterRegistry"])

/-- `Engine.Run`: the analysis workflow — collect, build the tool
registry and template variables, render the prompt, apply LLM-config
overrides, run the LLM analysis, build the result, write the summary,
and send notifications if configured.  Returns the Go
`(*Result, error)` pair as an `Except`, together with the effect
trace. -/
def Engine.Run (cfg : Config) (env : Env) : Except String Result × Trace :=
  match env.collect with
  | .error e => (.error ("failed to collect krkn-ai results: " ++ e), {})
  | .ok data =>
    let toolRegistry := data.LogArtifacts
    let vars := buildTemplateVars data
    match env.render with
    | .error e =>
      (.error ("failed to render prompt: " ++ e),
       { renders := [(krknAIPromptTemplate, vars)] })
    | .ok (userPrompt, tmplConfig) =>
      let llmConfig := applyLLMOverrides cfg.LLMConfig tmplConfig
      match env.analyze with
      | .error e =>
        (.error ("LLM analysis failed: " ++ e),
         { renders := [(krknAIPromptTemplate, vars)],
           analyzeCalls := [(userPrompt, llmConfig, toolRegistry)] })
      | .ok out =>
        let analysisResult := successResult userPrompt data out
        match Engine.writeSummary cfg env analysisResult data with
        | .error e =>
          (.error ("failed to write analysis summary: " ++ e),
           { renders := [(krknAIPromptTemplate, vars)],
             analyzeCalls := [(userPrompt, llmConfig, toolRegistry)] })
        | .ok written =>
          let notified := runNotifyStage cfg env analysisResult
          (.ok analysisResult,
           { renders := [(krknAIPromptTemplate, vars)],
             analyzeCalls := [(userPrompt, llmConfig, toolRegistry)],
             writes := [written],
             notifies := notified.1,
             warnings := notified.2 })

/-- A sample aggregator summary used by concrete witnesses. -/
def sampleSummary : KrknSummary :=
  { TotalScenarioCount := 50,
    SuccessfulScenarioCount := 45,
    FailedScenarioCount := 5,
    Generations := 7,
    MaxFitnessScore := 9,
    AvgFitnessScore := 4,
    ScenarioTypes := [("pod-delete", 30), ("node-drain", 20)] }

/-- A sample collected-data bundle used by concrete witnesses. -/
def sampleData : KrknAIData :=
  { Summary := sampleSummary,
    TopScenarios := ["scenario-1", "scenario-2"],
    FailedScenarios := ["scenario-3"],
    HealthCheckReport := "all probes green",
    LogArtifacts := ["logs/a.txt", "logs/b.txt"],
    ConfigSummary := "config summary" }

/-- Sample template-supplied model parameters. -/
def sampleTmplConfig : AnalysisConfig :=
  { Temperature := some 1,
    MaxTokens := some 1024,
    TopP := none,
    Extra := [("model", "gemini")] }

/-- Sample LLM output: two `read_file` calls and one other tool call. -/
def sampleOut : AnalyzeResult :=
  { Content := "analysis text",
    ToolCalls :=
      [{ Name := "read_file", Args := "logs/a.txt" },
       { Name := "read_file", Args := "logs/b.txt" },
       { Name := "other_tool", Args := "x" }] }

/-- A sample engine configuration with notifications enabled. -/
def sampleConfig : Config :=
  { ResultsDir := "results",
    APIKey := "key",
    LLMConfig := some
      { Temperature := some 2, MaxTokens := none, TopP := none, Extra := [] },
    NotificationConfig := some
      { Enabled := true,
        Reporters := [{ ReporterType := "slack" }, { ReporterType := "mail" }] },
    TopScenariosCount := 10 }

/-- A sample environment in which every stage succeeds. -/
def sampleEnvOk : Env :=
  { collect := .ok sampleData,
    render := .ok ("PROMPT", sampleTmplConfig),
    analyze := .ok sampleOut,
    mkdirErr := none,
    writeErr := none,
    sendErr := fun _ => none,
    now := "2026-01-01T00:00:00Z" }

/-- A sample environment for `New` in which every initialization
succeeds. -/
def sampleNewEnv : NewEnv :=
  { subFSErr := none, promptStoreErr := none, geminiErr := none }

/-- Helper: under an environment in which every stage succeeds, `Run`
returns the constructed result and the full effect trace. -/
theorem run_success_eq (cfg : Config) (env : Env) (data : KrknAIData)
    (p : String) (c0 : AnalysisConfig) (out : AnalyzeResult)
    (hc : env.collect = .ok data) (hr : env.render = .ok (p, c0))
    (ha : env.analyze = .ok out) (hm : env.mkdirErr = none)
    (hw : env.writeErr = none) :
    Engine.Run cfg env =
      (.ok (successResult p data out),
       { renders := [(krknAIPromptTemplate, buildTemplateVars data)],
         analyzeCalls :=
           [(p, applyLLMOverrides cfg.LLMConfig c0, data.LogArtifacts)],
         writes :=
           [(summaryPath cfg,
             buildSummaryDoc env.now (successResult p data out) data)],
         notifies := (runNotifyStage cfg env (successResult p data out)).1,
         warnings := (runNotifyStage cfg env (successResult p data out)).2 }) := by
  unfold Engine.Run Engine.writeSummary
  rw [hc, hr, ha, hm, hw]

/-- C1: if the aggregator's `Collect` call fails, `Run` returns the
error wrapping that failure together with a nil result, and no summary
file is written (`writeSummary` is never reached; the effect trace is
empty, in particular its list of written files). -/
theorem run_collect_error_aborts (cfg : Config) (env : Env) (e : String)
    (hc : env.collect = .error e) :
    (Engine.Run cfg env).1 =
      .error ("failed to collect krkn-ai results: " ++ e) ∧
    (Engine.Run cfg env).2.writes = [] := by
  unfold Engine.Run
  rw [hc]
  exact ⟨rfl, rfl⟩

/-- C1 witness: a concrete environment whose aggregation fails. -/
theorem run_collect_error_aborts_witness :
    (Engine.Run sampleConfig { sampleEnvOk with collect := .error "boom" }).1 =
      .error ("failed to collect krkn-ai results: " ++ "boom") ∧
    (Engine.Run sampleConfig
        { sampleEnvOk with collect := .error "boom" }).2.writes = [] :=
  run_collect_error_aborts sampleConfig
    { sampleEnvOk with collect := .error "boom" } "boom" rfl

/-- C2: on a successful run the returned result's status is
`"completed"` and the five summary-derived metadata entries are exactly
the corresponding fields of the `CollectedData` summary produced by
aggregation in that same run. -/
theorem run_metadata_matches_summary (cfg : Config) (env : Env)
    (data : KrknAIData) (p : String) (c0 : AnalysisConfig)
    (out : AnalyzeResult)
    (hc : env.collect = .ok data) (hr : env.render = .ok (p, c0))
    (ha : env.analyze = .ok out) (hm : env.mkdirErr = none)
    (hw : env.writeErr = none) :
    (Engine.Run cfg env).1 = .ok (successResult p data out) ∧
    (successResult p data out).Status = "completed" ∧
    metaLookup (successResult p data out).Metadata "total_scenarios" =
      some (.int data.Summary.TotalScenarioCount) ∧
    metaLookup (successResult p data out).Metadata "successful_scenarios" =
      some (.int data.Summary.SuccessfulScenarioCount) ∧
    metaLookup (successResult p data out).Metadata "failed_scenarios" =
      some (.int data.Summary.FailedScenarioCount) ∧
    metaLookup (successResult p data out).Metadata "generations" =
      some (.int data.Summary.Generations) ∧
    metaLookup (successResult p data out).Metadata "max_fitness_score" =
      some (.int data.Summary.MaxFitnessScore) := by
  refine ⟨?_, rfl, rfl, rfl, rfl, rfl, rfl⟩
  rw [run_success_eq cfg env data p c0 out hc hr ha hm hw]

/-- C2 witness: concrete run with `TotalScenarioCount = 50` and
`FailedScenarioCount = 5`. -/
theorem run_metadata_matches_summary_witness :
    (Engine.Run sampleConfig sampleEnvOk).1 =
      .ok (successResult "PROMPT" sampleData sampleOut) ∧
    (successResult "PROMPT" sampleData sampleOut).Status = "completed" ∧
    metaLookup (successResult "PROMPT" sampleData sampleOut).Metadata
      "total_scenarios" = some (.int 50) ∧
    metaLookup (successResult "PROMPT" sampleData sampleOut).Metadata
      "successful_scenarios" = some (.int 45) ∧
    metaLookup (successResult "PROMPT" sampleData sampleOut).Metadata
      "failed_scenarios" = some (.int 5) ∧
    metaLookup (successResult "PROMPT" sampleData sampleOut).Metadata
      "generations" = some (.int 7) ∧
    metaLookup (successResult "PROMPT" sampleData sampleOut).Metadata
      "max_fitness_score" = some (.int 9) :=
  run_metadata_matches_summary sampleConfig sampleEnvOk sampleData
    "PROMPT" sampleTmplConfig sampleOut rfl rfl rfl rfl rfl

/-- C3: on a successful run the `tool_calls` metadata entry is the
length of the tool-call list returned by the LLM client, and the
`artifacts_examined` entry is the number of entries in that list whose
`Name` equals `"read_file"`. -/
theorem run_toolCall_counts (cfg : Config) (env : Env)
    (data : KrknAIData) (p : String) (c0 : AnalysisConfig)
    (out : AnalyzeResult)
    (hc : env.collect = .ok data) (hr : env.render = .ok (p, c0))
    (ha : env.analyze = .ok out) (hm : env.mkdirErr = none)
    (hw : env.writeErr = none) :
    (Engine.Run cfg env).1 = .ok (successResult p data out) ∧
    metaLookup (successResult p data out).Metadata "tool_calls" =
      some (.int out.ToolCalls.length) ∧
    metaLookup (successResult p data out).Metadata "artifacts_examined" =
      some (.int (out.ToolCalls.countP (fun tc => tc.Name == "read_file"))) := by
  refine ⟨?_, rfl, rfl⟩
  rw [run_success_eq cfg env data p c0 out hc hr ha hm hw]

/-- C3 witness: with the tool-call list
`[read_file, read_file, other_tool]`, `tool_calls` is 3 and
`artifacts_examined` is 2. -/
theorem run_toolCall_counts_witness :
    (Engine.Run sampleConfig sampleEnvOk).1 =
      .ok (successResult "PROMPT" sampleData sampleOut) ∧
    metaLookup (successResult "PROMPT" sampleData sampleOut).Metadata
      "tool_calls" = some (.int 3) ∧
    metaLookup (successResult "PROMPT" sampleData sampleOut).Metadata
      "artifacts_examined" = some (.int 2) :=
  run_toolCall_counts sampleConfig sampleEnvOk sampleData
    "PROMPT" sampleTmplConfig sampleOut rfl rfl rfl rfl rfl

/-- C4: on a run in which every fatal stage succeeds, notifications are
dispatched exactly when the notification configuration is present with
`Enabled` true, once per configured reporter entry, with the reporter
payload built from the result; and the per-reporter send outcomes
(`g`) never change the value `Run` returns — in particular a failing
reporter does not make `Run` return an error. -/
theorem run_notification_dispatch (cfg : Config) (env : Env)
    (data : KrknAIData) (p : String) (c0 : AnalysisConfig)
    (out : AnalyzeResult) (g : ReporterConfig → Option String)
    (hc : env.collect = .ok data) (hr : env.render = .ok (p, c0))
    (ha : env.analyze = .ok out) (hm : env.mkdirErr = none)
    (hw : env.writeErr = none) :
    (Engine.Run cfg { env with sendErr := g }).1 =
      .ok (successResult p data out) ∧
    (Engine.Run cfg { env with sendErr := g }).2.notifies =
      (match cfg.NotificationConfig with
       | some nc =>
         if nc.Enabled then
           nc.Reporters.map
             (fun rc => (toReporterResult (successResult p data out), rc))
         else []
       | none => []) ∧
    (Engine.Run cfg { env with sendErr := g }).1 =
      (Engine.Run cfg env).1 := by
  have h1 := run_success_eq cfg { env with sendErr := g } data p c0 out
    hc hr ha hm hw
  have h2 := run_success_eq cfg env data p c0 out hc hr ha hm hw
  refine ⟨?_, ?_, ?_⟩
  · rw [h1]
  · rw [h1]
    cases hnc : cfg.NotificationConfig with
    | none => simp [runNotifyStage, hnc]
    | some nc =>
      cases hE : nc.Enabled <;>
        simp [runNotifyStage, Engine.sendNotifications, hnc, hE]
  · rw [h1, h2]

/-- C4 witness: two configured reporters, every send failing, yet the
run still returns the successful result and dispatches to both. -/
theorem run_notification_dispatch_witness :
    (Engine.Run sampleConfig
        { sampleEnvOk with sendErr := fun _ => some "boom" }).1 =
      .ok (successResult "PROMPT" sampleData sampleOut) ∧
    (Engine.Run sampleConfig
        { sampleEnvOk with sendErr := fun _ => some "boom" }).2.notifies =
      [(toReporterResult (successResult "PROMPT" sampleData sampleOut),
        { ReporterType := "slack" }),
       (toReporterResult (successResult "PROMPT" sampleData sampleOut),
        { ReporterType := "mail" })] ∧
    (Engine.Run sampleConfig
        { sampleEnvOk with sendErr := fun _ => some "boom" }).1 =
      (Engine.Run sampleConfig sampleEnvOk).1 :=
  run_notification_dispatch sampleConfig sampleEnvOk sampleData
    "PROMPT" sampleTmplConfig sampleOut (fun _ => some "boom")
    rfl rfl rfl rfl rfl

/-- C5: on a run whose aggregation, rendering and model invocation
succeed, the summary is written to the fixed path
`<results-dir>/llm-analysis/summary.yaml` with the document containing
the timestamp, the fixed tag `"krknai"`, the run-summary block (counts,
generations, max/avg fitness, scenario-type histogram), the
top/failed-scenario lists from aggregation, and the result's status,
prompt, content, metadata and error; a directory-creation or
file-write failure (`e`) makes `Run` return an error instead. -/
theorem run_writeSummary_spec (cfg : Config) (env : Env)
    (data : KrknAIData) (p : String) (c0 : AnalysisConfig)
    (out : AnalyzeResult) (e : String)
    (hc : env.collect = .ok data) (hr : env.render = .ok (p, c0))
    (ha : env.analyze = .ok out) :
    (env.mkdirErr = none → env.writeErr = none →
      (Engine.Run cfg env).2.writes =
        [(pathJoin (pathJoin cfg.ResultsDir "llm-analysis") "summary.yaml",
          { timestamp := env.now,
            analysis_type := "krknai",
            run_summary :=
              { total_scenarios := data.Summary.TotalScenarioCount,
                successful_scenarios := data.Summary.SuccessfulScenarioCount,
                failed_scenarios := data.Summary.FailedScenarioCount,
                generations := data.Summary.Generations,
                max_fitness_score := data.Summary.MaxFitnessScore,
                avg_fitness_score := data.Summary.AvgFitnessScore,
                scenario_types := data.Summary.ScenarioTypes },
            top_scenarios := data.TopScenarios,
            failed_scenarios := data.FailedScenarios,
            status := (successResult p data out).Status,
            prompt := (successResult p data out).Prompt,
            response := (successResult p data out).Content,
            metadata := (successResult p data out).Metadata,
            error := (successResult p data out).Error })]) ∧
    (env.mkdirErr = some e →
      (Engine.Run cfg env).1 =
        .error ("failed to write analysis summary: " ++
          ("failed to create analysis directory: " ++ e))) ∧
    (env.mkdirErr = none → env.writeErr = some e →
      (Engine.Run cfg env).1 =
        .error ("failed to write analysis summary: " ++
          ("failed to write summary file: " ++ e))) := by
  refine ⟨?_, ?_, ?_⟩
  · intro hm hw
    rw [run_success_eq cfg env data p c0 out hc hr ha hm hw]
    rfl
  · intro hm
    unfold Engine.Run Engine.writeSummary
    rw [hc, hr, ha, hm]
  · intro hm hw
    unfold Engine.Run Engine.writeSummary
    rw [hc, hr, ha, hm, hw]

/-- C5 witness: concrete run in which both file-system operations
succeed; the summary lands at `results/llm-analysis/summary.yaml`. -/
theorem run_writeSummary_spec_witness :
    (sampleEnvOk.mkdirErr = none → sampleEnvOk.writeErr = none →
      (Engine.Run sampleConfig sampleEnvOk).2.writes =
        [(pathJoin (pathJoin "results" "llm-analysis") "summary.yaml",
          { timestamp := "2026-01-01T00:00:00Z",
            analysis_type := "krknai",
            run_summary :=
              { total_scenarios := 50,
                successful_scenarios := 45,
                failed_scenarios := 5,
                generations := 7,
                max_fitness_score := 9,
                avg_fitness_score := 4,
                scenario_types := [("pod-delete", 30), ("node-drain", 20)] },
            top_scenarios := ["scenario-1", "scenario-2"],
            failed_scenarios := ["scenario-3"],
            status := "completed",
            prompt := "PROMPT",
            response := "analysis text",
            metadata := buildMetadata sampleSummary sampleOut.ToolCalls,
            error := "" })]) ∧
    (sampleEnvOk.mkdirErr = some "disk full" →
      (Engine.Run sampleConfig sampleEnvOk).1 =
        .error ("failed to write analysis summary: " ++
          ("failed to create analysis directory: " ++ "disk full"))) ∧
    (sampleEnvOk.mkdirErr = none → sampleEnvOk.writeErr = some "disk full" →
      (Engine.Run sampleConfig sampleEnvOk).1 =
        .error ("failed to write analysis summary: " ++
          ("failed to write summary file: " ++ "disk full"))) :=
  run_writeSummary_spec sampleConfig sampleEnvOk sampleData
    "PROMPT" sampleTmplConfig sampleOut "disk full" rfl rfl rfl

/-- C6 counterexample: calling `New` with a nil configuration does not
return an error — the first precondition check dereferences the nil
pointer and the call panics. -/
theorem new_nil_config_panics_cex :
    (New none sampleNewEnv).1 = GoOutcome.panics ∧
    (New none sampleNewEnv).1.isFail = false := by
  exact ⟨rfl, rfl⟩

/-- C6 (amended): given a non-nil configuration, `New` fails at
construction — returning an error and no engine — whenever the results
directory path is empty or the API key is empty, and in both cases no
collaborator initialization or I/O is attempted (the attempted-
operation list is empty); a nil configuration instead causes a runtime
panic when the first check dereferences it. -/
theorem new_precondition_failures (cfg : Config) (env : NewEnv) :
    (cfg.ResultsDir = "" →
      New (some cfg) env = (.fail "results directory is required", [])) ∧
    (cfg.ResultsDir ≠ "" → cfg.APIKey = "" →
      New (some cfg) env =
        (.fail "GEMINI_API_KEY is required for krkn-ai analysis", [])) ∧
    (New none env).1 = GoOutcome.panics := by
  refine ⟨?_, ?_, rfl⟩
  · intro h
    simp [New, h]
  · intro h1 h2
    simp [New, h1, h2]

/-- C6 witness: an empty results directory is rejected before any
initialization. -/
theorem new_precondition_failures_witness :
    (({ sampleConfig with ResultsDir := "" } : Config).ResultsDir = "" →
      New (some { sampleConfig with ResultsDir := "" }) sampleNewEnv =
        (.fail "results directory is required", [])) ∧
    (({ sampleConfig with ResultsDir := "" } : Config).ResultsDir ≠ "" →
      ({ sampleConfig with ResultsDir := "" } : Config).APIKey = "" →
      New (some { sampleConfig with ResultsDir := "" }) sampleNewEnv =
        (.fail "GEMINI_API_KEY is required for krkn-ai analysis", [])) ∧
    (New none sampleNewEnv).1 = GoOutcome.panics :=
  new_precondition_failures { sampleConfig with ResultsDir := "" } sampleNewEnv

/-- C7: the caller's LLM configuration overrides exactly the three
model-invocation parameters, each independently and only when its
caller-supplied value is present; every other template-supplied
parameter is kept, and `Run` passes exactly the overridden
configuration to the LLM client. -/
theorem run_llm_overrides (cfg : Config) (env : Env)
    (data : KrknAIData) (p : String) (c0 : AnalysisConfig)
    (out : AnalyzeResult) (o c : AnalysisConfig)
    (hc : env.collect = .ok data) (hr : env.render = .ok (p, c0))
    (ha : env.analyze = .ok out) (hm : env.mkdirErr = none)
    (hw : env.writeErr = none) :
    applyLLMOverrides none c = c ∧
    (applyLLMOverrides (some o) c).Temperature =
      (if o.Temperature.isSome then o.Temperature else c.Temperature) ∧
    (applyLLMOverrides (some o) c).MaxTokens =
      (if o.MaxTokens.isSome then o.MaxTokens else c.MaxTokens) ∧
    (applyLLMOverrides (some o) c).TopP =
      (if o.TopP.isSome then o.TopP else c.TopP) ∧
    (applyLLMOverrides (some o) c).Extra = c.Extra ∧
    (Engine.Run cfg env).2.analyzeCalls =
      [(p, applyLLMOverrides cfg.LLMConfig c0, data.LogArtifacts)] := by
  refine ⟨rfl, ?_, ?_, ?_, ?_, ?_⟩
  · rcases o with ⟨t, m, tp, ex⟩
    cases t <;> cases m <;> cases tp <;> simp [applyLLMOverrides]
  · rcases o with ⟨t, m, tp, ex⟩
    cases t <;> cases m <;> cases tp <;> simp [applyLLMOverrides]
  · rcases o with ⟨t, m, tp, ex⟩
    cases t <;> cases m <;> cases tp <;> simp [applyLLMOverrides]
  · rcases o with ⟨t, m, tp, ex⟩
    cases t <;> cases m <;> cases tp <;> simp [applyLLMOverrides]
  · rw [run_success_eq cfg env data p c0 out hc hr ha hm hw]

/-- C7 witness: a caller override supplying only a temperature keeps
the template's max-tokens and extra parameters. -/
theorem run_llm_overrides_witness :
    applyLLMOverrides none sampleTmplConfig = sampleTmplConfig ∧
    (applyLLMOverrides
        (some { Temperature := some 2, MaxTokens := none, TopP := none,
                Extra := [] })
        sampleTmplConfig).Temperature = some 2 ∧
    (applyLLMOverrides
        (some { Temperature := some 2, MaxTokens := none, TopP := none,
                Extra := [] })
        sampleTmplConfig).MaxTokens = some 1024 ∧
    (applyLLMOverrides
        (some { Temperature := some 2, MaxTokens := none, TopP := none,
                Extra := [] })
        sampleTmplConfig).TopP = none ∧
    (applyLLMOverrides
        (some { Temperature := some 2, MaxTokens := none, TopP := none,
                Extra := [] })
        sampleTmplConfig).Extra = sampleTmplConfig.Extra ∧
    (Engine.Run sampleConfig sampleEnvOk).2.analyzeCalls =
      [("PROMPT",
        applyLLMOverrides sampleConfig.LLMConfig sampleTmplConfig,
        sampleData.LogArtifacts)] :=
  run_llm_overrides sampleConfig sampleEnvOk sampleData
    "PROMPT" sampleTmplConfig sampleOut
    { Temperature := some 2, MaxTokens := none, TopP := none, Extra := [] }
    sampleTmplConfig rfl rfl rfl rfl rfl

/-- C8 counterexample: the template-variable mapping has exactly six
entries, not seven, already on a concrete collected-data bundle. -/
theorem templateVars_not_seven_cex :
    (buildTemplateVars sampleData).length = 6 ∧
    (buildTemplateVars sampleData).length ≠ 7 := by
  exact ⟨rfl, by decide⟩

/-- C8 (amended): whenever aggregation succeeds, the mapping passed to
`RenderPrompt` is built from the six named `CollectedData` fields —
summary, top scenarios, failed scenarios, health-check report, log
artifacts, config summary — and contains no other entries; no other
internal state of the engine reaches the template context. -/
theorem run_templateVars_exact (cfg : Config) (env : Env)
    (data : KrknAIData) (hc : env.collect = .ok data) :
    buildTemplateVars data =
      [("Summary", .sum data.Summary),
       ("TopScenarios", .strList data.TopScenarios),
       ("FailedScenarios", .strList data.FailedScenarios),
       ("HealthCheckReport", .str data.HealthCheckReport),
       ("LogArtifacts", .strList data.LogArtifacts),
       ("ConfigSummary", .str data.ConfigSummary)] ∧
    (Engine.Run cfg env).2.renders =
      [(krknAIPromptTemplate, buildTemplateVars data)] := by
  refine ⟨rfl, ?_⟩
  cases hr : env.render with
  | error e => simp [Engine.Run, hc, hr]
  | ok pc =>
    obtain ⟨p, c0⟩ := pc
    cases ha : env.analyze with
    | error e => simp [Engine.Run, hc, hr, ha]
    | ok out =>
      cases hm : env.mkdirErr with
      | some e => simp [Engine.Run, Engine.writeSummary, hc, hr, ha, hm]
      | none =>
        cases hw : env.writeErr with
        | some e =>
          simp [Engine.Run, Engine.writeSummary, hc, hr, ha, hm, hw]
        | none =>
          rw [run_success_eq cfg env data p c0 out hc hr ha hm hw]

/-- C8 witness: the mapping for the sample collected data. -/
theorem run_templateVars_exact_witness :
    buildTemplateVars sampleData =
      [("Summary", .sum sampleSummary),
       ("TopScenarios", .strList ["scenario-1", "scenario-2"]),
       ("FailedScenarios", .strList ["scenario-3"]),
       ("HealthCheckReport", .str "all probes green"),
       ("LogArtifacts", .strList ["logs/a.txt", "logs/b.txt"]),
       ("ConfigSummary", .str "config summary")] ∧
    (Engine.Run sampleConfig sampleEnvOk).2.renders =
      [(krknAIPromptTemplate, buildTemplateVars sampleData)] :=
  run_templateVars_exact sampleConfig sampleEnvOk sampleData rfl

/-- C9: on every successful run the returned result's `ToolCalls`
field is nil (`none`): the tool-call list from the LLM client is used
only for the two metadata counts and never attached to the returned
result. -/
theorem run_result_toolCalls_nil (cfg : Config) (env : Env)
    (data : KrknAIData) (p : String) (c0 : AnalysisConfig)
    (out : AnalyzeResult)
    (hc : env.collect = .ok data) (hr : env.render = .ok (p, c0))
    (ha : env.analyze = .ok out) (hm : env.mkdirErr = none)
    (hw : env.writeErr = none) :
    (Engine.Run cfg env).1 = .ok (successResult p data out) ∧
    (successResult p data out).ToolCalls = none := by
  refine ⟨?_, rfl⟩
  rw [run_success_eq cfg env data p c0 out hc hr ha hm hw]

/-- C9 witness: even with three tool calls in the LLM output, the
returned result carries none. -/
theorem run_result_toolCalls_nil_witness :
    (Engine.Run sampleConfig sampleEnvOk).1 =
      .ok (successResult "PROMPT" sampleData sampleOut) ∧
    (successResult "PROMPT" sampleData sampleOut).ToolCalls = none :=
  run_result_toolCalls_nil sampleConfig sampleEnvOk sampleData
    "PROMPT" sampleTmplConfig sampleOut rfl rfl rfl rfl rfl

/-- C10: on every successful run the result metadata has exactly the
eight keys, in source order; the average fitness score is absent from
the metadata and appears (only) in the persisted summary's run-summary
block, which is the document `Run` writes. -/
theorem run_metadata_exact_keys (cfg : Config) (env : Env)
    (data : KrknAIData) (p : String) (c0 : AnalysisConfig)
    (out : AnalyzeResult)
    (hc : env.collect = .ok data) (hr : env.render = .ok (p, c0))
    (ha : env.analyze = .ok out) (hm : env.mkdirErr = none)
    (hw : env.writeErr = none) :
    (Engine.Run cfg env).1 = .ok (successResult p data out) ∧
    (successResult p data out).Metadata.map Prod.fst =
      ["analysis_type", "total_scenarios", "successful_scenarios",
       "failed_scenarios", "generations", "max_fitness_score",
       "artifacts_examined", "tool_calls"] ∧
    metaLookup (successResult p data out).Metadata "avg_fitness_score" =
      none ∧
    (Engine.Run cfg env).2.writes =
      [(summaryPath cfg,
        buildSummaryDoc env.now (successResult p data out) data)] ∧
    (buildSummaryDoc env.now (successResult p data out)
        data).run_summary.avg_fitness_score =
      data.Summary.AvgFitnessScore := by
  have h1 := run_success_eq cfg env data p c0 out hc hr ha hm hw
  refine ⟨?_, rfl, rfl, ?_, rfl⟩
  · rw [h1]
  · rw [h1]

/-- C10 witness: the eight metadata keys on a concrete run, with the
average fitness score only in the persisted run-summary block. -/
theorem run_metadata_exact_keys_witness :
    (Engine.Run sampleConfig sampleEnvOk).1 =
      .ok (successResult "PROMPT" sampleData sampleOut) ∧
    (successResult "PROMPT" sampleData sampleOut).Metadata.map Prod.fst =
      ["analysis_type", "total_scenarios", "successful_scenarios",
       "failed_scenarios", "generations", "max_fitness_score",
       "artifacts_examined", "tool_calls"] ∧
    metaLookup (successResult "PROMPT" sampleData sampleOut).Metadata
      "avg_fitness_score" = none ∧
    (Engine.Run sampleConfig sampleEnvOk).2.writes =
      [(summaryPath sampleConfig,
        buildSummaryDoc "2026-01-01T00:00:00Z"
          (successResult "PROMPT" sampleData sampleOut) sampleData)] ∧
    (buildSummaryDoc "2026-01-01T00:00:00Z"
        (successResult "PROMPT" sampleData sampleOut)
        sampleData).run_summary.avg_fitness_score = 4 :=
  run_metadata_exact_keys sampleConfig sampleEnvOk sampleData
    "PROMPT" sampleTmplConfig sampleOut rfl rfl rfl rfl rfl
